import Mathlib

/-!
Verification of the ESP32_HomeKit_Fan control logic.

This development gives a shallow embedding of the core control code of the
repository (main/remote.c, main/button.c, main/relay.c, main/event_handlers.c,
main/main.c) and proves properties of it.  Machine integers are modelled as
Nat or Int with explicit wraparound where the C arithmetic can wrap; fan-speed
enum arithmetic is modelled on Int with truncated division semantics (Int.tmod)
to match C signed modulo.
-/

namespace FanVerify

/-! ## Shared data model (main.h) -/

/-- Enum Event_source from main.h. -/
inductive Event_source where
  | homekit
  | remote
  | button
deriving DecidableEq, Repr

/-- Enum Event_id from main.h. -/
inductive Event_id where
  | power
  | oscillate
  | time
  | speed
  | temperature
deriving DecidableEq, Repr

/-- Struct Fan_event_t from main.h.  The uint32 argument is carried as an Int;
the producers only ever place the values 0..4 in it. -/
structure Fan_event_t where
  source : Event_source
  id : Event_id
  arg : Int
deriving DecidableEq, Repr

/-- Enum State_speed from main.h: SPEED_OFF = 0, SPEED_1 .. SPEED_4 = 1..4,
NUM_SPEED = 5.  Modelled as the underlying C int value. -/
def SPEED_OFF : Int := 0
def SPEED_1 : Int := 1
def SPEED_2 : Int := 2
def SPEED_3 : Int := 3
def SPEED_4 : Int := 4
def NUM_SPEED : Int := 5

/-- Struct Fan_state_t from main.h.  The C field named on is called isOn here
because on is a reserved word in Lean. -/
structure Fan_state_t where
  isOn : Bool
  oscillate : Bool
  speed : Int
deriving DecidableEq, Repr

/-! ## Infrared decoder (remote.c) -/

/-- Constants from remote.c. -/
def IR_CODE_POWER : Nat := 0x13F
def IR_CODE_OSCILLATE : Nat := 0x13B
def IR_CODE_SPEED : Nat := 0x13D
def IR_CODE_TIME : Nat := 0x13E
def IR_CODE_TEMPERATURE : Nat := 0x12F

def NUM_SYMBOL_EXPECTED : Nat := 11
def RMT_MAX_MEM_SYMBOLS : Nat := 48
def DURATION_ERROR_MARGIN : Nat := 200
def DURATION_SHORT : Nat := 400
def DURATION_LONG : Nat := 1200

/-- Size of uint32 / the 32-bit size_t of the ESP32 target. -/
def U32 : Nat := 4294967296

/-- One rmt_symbol_word_t: the pair of durations (duration0 = mark,
duration1 = space), in microseconds, as unsigned values. -/
structure RmtSymbol where
  duration0 : Nat
  duration1 : Nat
deriving DecidableEq, Repr

/-- Function check_in_range from remote.c.  Both comparisons are strict; the
additions and subtraction happen in uint32 arithmetic, hence the explicit
mod U32 (no wrap actually occurs for the two spec durations used). -/
def check_in_range (signal_duration spec_duration : Nat) : Bool :=
  decide (signal_duration < (spec_duration + DURATION_ERROR_MARGIN) % U32) &&
  decide ((spec_duration + (U32 - DURATION_ERROR_MARGIN)) % U32 < signal_duration)

/-- Function parse_logic0 from remote.c: logic 0 = (long mark, short space). -/
def parse_logic0 (symbol : RmtSymbol) : Bool :=
  check_in_range symbol.duration0 DURATION_LONG &&
  check_in_range symbol.duration1 DURATION_SHORT

/-- Function parse_logic1 from remote.c: logic 1 = (short mark, long space). -/
def parse_logic1 (symbol : RmtSymbol) : Bool :=
  check_in_range symbol.duration0 DURATION_SHORT &&
  check_in_range symbol.duration1 DURATION_LONG

/-- Lookup part of function is_command from remote.c: the switch mapping an
11-bit IR code to the Fan_event_t that the function enqueues (is_command
returns true exactly when the result is some event). -/
def is_command (ir_code : Nat) : Option Fan_event_t :=
  if ir_code = IR_CODE_POWER then some ⟨Event_source.remote, Event_id.power, 0⟩
  else if ir_code = IR_CODE_OSCILLATE then some ⟨Event_source.remote, Event_id.oscillate, 0⟩
  else if ir_code = IR_CODE_SPEED then some ⟨Event_source.remote, Event_id.speed, 0⟩
  else if ir_code = IR_CODE_TIME then some ⟨Event_source.remote, Event_id.time, 0⟩
  else if ir_code = IR_CODE_TEMPERATURE then some ⟨Event_source.remote, Event_id.temperature, 0⟩
  else none

/-- Shift amount of the C expression NUM_SYMBOL_EXPECTED - bit_index - 1 in
parse_ir_code, computed (as in the source) in 32-bit size_t arithmetic, so it
wraps around when bit_index is at least 11. -/
def shift_amt (bit_index : Nat) : Nat :=
  (NUM_SYMBOL_EXPECTED + U32 - (bit_index + 1)) % U32

/-- Loop of function parse_ir_code from remote.c over the remaining symbols,
carrying the ir_code and bit_index locals.  The first list component collects
the events enqueued by is_command, in enqueue order.  The boolean is true as
long as no undefined shift was executed: the C statement
ir_code |= (1 << (NUM_SYMBOL_EXPECTED - bit_index - 1)) shifts the int 1 by
the size_t shift_amt value, which is undefined behaviour once the amount
reaches the int width; that point is modelled by stopping with false (the
events already enqueued stand).  A symbol matching neither template executes
the return statement of the C loop: the whole rest of the frame is dropped. -/
def parse_loop : List RmtSymbol → Nat → Nat → List Fan_event_t × Bool
  | [], _, _ => ([], true)
  | sym :: rest, ir_code, bit_index =>
    if parse_logic1 sym then
      if 31 ≤ shift_amt bit_index then ([], false)
      else
        let code := (ir_code ||| (1 <<< shift_amt bit_index)) % 65536
        if bit_index + 1 = NUM_SYMBOL_EXPECTED then
          match is_command code with
          | some ev =>
            let r := parse_loop rest code (bit_index + 1)
            (ev :: r.1, r.2)
          | none => parse_loop rest 0 0
        else parse_loop rest code (bit_index + 1)
    else if parse_logic0 sym then
      if bit_index + 1 = NUM_SYMBOL_EXPECTED then
        match is_command ir_code with
        | some ev =>
          let r := parse_loop rest ir_code (bit_index + 1)
          (ev :: r.1, r.2)
        | none => parse_loop rest 0 0
      else parse_loop rest ir_code (bit_index + 1)
    else ([], true)

/-- Function parse_ir_code from remote.c: frames whose symbol count differs
from RMT_MAX_MEM_SYMBOLS (48) are rejected outright; otherwise the loop runs
with ir_code = 0 and bit_index = 0.  Result as in parse_loop. -/
def parse_ir_code (rmt_symbols : List RmtSymbol) : List Fan_event_t × Bool :=
  if rmt_symbols.length ≠ RMT_MAX_MEM_SYMBOLS then ([], true)
  else parse_loop rmt_symbols 0 0

/-- Value of the ir_code local after folding a further list of classified bits
into it starting at a given bit_index, mirroring the accumulation steps of
parse_loop (OR of 1 shifted by shift_amt, truncated to uint16). -/
def accumCode (code bit_index : Nat) : List Bool → Nat
  | [] => code
  | b :: bs =>
    accumCode (if b then (code ||| (1 <<< shift_amt bit_index)) % 65536 else code)
      (bit_index + 1) bs

/-- Pointwise statement that a list of RMT symbols classifies exactly as a
list of bits: position i is logic 1 iff the bit is true and logic 0 iff the
bit is false.  Both lists must have the same length. -/
def encodesBits : List RmtSymbol → List Bool → Bool
  | [], [] => true
  | sym :: syms, b :: bs =>
    (parse_logic1 sym == b) && (parse_logic0 sym == !b) && encodesBits syms bs
  | _, _ => false

/-! ## Actuator gateway calls (relay.c / led.c / homekit.c entry points) -/

/-- One call made by an event handler to the actuator / mirroring layer. -/
inductive Act where
  | relay_write_speed (speed : Int)
  | relay_write_oscillate (oscillate : Bool)
  | led_write_enable (enable : Bool)
  | homekit_update_char
deriving DecidableEq, Repr

/-- Process-wide state touched by the event handlers: g_Fan_state from main.c
and g_Led_enable from led.c. -/
structure SysState where
  fan : Fan_state_t
  led_enable : Bool
deriving DecidableEq, Repr

/-! ## Event handlers (event_handlers.c)

Each handler is modelled as a function from the global state and the event to
the new global state together with the ordered list of actuator-gateway calls
it performs.  C casts: (bool) event->arg is arg different from 0;
(enum State_speed) event->arg is the integer value itself. -/

/-- Function handle_homekit from event_handlers.c. -/
def handle_homekit (s : SysState) (event : Fan_event_t) : SysState × List Act :=
  match event.id with
  | Event_id.power =>
    if s.fan.isOn = decide (event.arg ≠ 0) then (s, [])
    else
      ({ s with fan := { s.fan with isOn := decide (event.arg ≠ 0) } },
       [Act.relay_write_speed (if event.arg ≠ 0 then s.fan.speed else SPEED_OFF),
        Act.relay_write_oscillate (if event.arg ≠ 0 then s.fan.oscillate else false)])
  | Event_id.oscillate =>
    ({ s with fan := { s.fan with oscillate := decide (event.arg ≠ 0) } },
     if s.fan.isOn then [Act.relay_write_oscillate (decide (event.arg ≠ 0))] else [])
  | Event_id.speed =>
    if SPEED_OFF = event.arg then (s, [])
    else
      ({ s with fan := { s.fan with speed := event.arg } },
       if s.fan.isOn then [Act.relay_write_speed event.arg] else [])
  | _ => (s, [])

/-- Function handle_button from event_handlers.c.  The ID_POWER arm computes
next_speed = ((speed - 1) % NUM_SPEED) + !on in C int arithmetic (truncated
modulus, hence Int.tmod); HomeKit_update_char is called after the switch on
every path. -/
def handle_button (s : SysState) (event : Fan_event_t) : SysState × List Act :=
  match event.id with
  | Event_id.power =>
    let next_speed : Int := (s.fan.speed - 1).tmod NUM_SPEED + (if s.fan.isOn then 0 else 1)
    ({ s with fan :=
        { s.fan with
          speed := if SPEED_OFF ≠ next_speed then next_speed else SPEED_4,
          isOn := decide (SPEED_OFF ≠ next_speed) } },
     [Act.relay_write_speed next_speed,
      Act.relay_write_oscillate (if SPEED_OFF ≠ next_speed then s.fan.oscillate else false),
      Act.homekit_update_char])
  | Event_id.oscillate =>
    ({ s with fan := { s.fan with oscillate := !s.fan.oscillate } },
     (if s.fan.isOn then [Act.relay_write_oscillate (!s.fan.oscillate)] else []) ++
       [Act.homekit_update_char])
  | _ => (s, [Act.homekit_update_char])

/-- Function handle_remote from event_handlers.c.  The ID_SPEED arm computes
next_speed = ((((int) speed - 1) - 1 + SPEED_4) % SPEED_4) + 1 in C int
arithmetic; ID_TIME and ID_TEMPERATURE call Led_write_enable(!g_Led_enable),
which stores the new flag; HomeKit_update_char runs after the switch on every
path. -/
def handle_remote (s : SysState) (event : Fan_event_t) : SysState × List Act :=
  match event.id with
  | Event_id.power =>
    ({ s with fan := { s.fan with isOn := !s.fan.isOn } },
     [Act.relay_write_speed (if s.fan.isOn then SPEED_OFF else s.fan.speed),
      Act.relay_write_oscillate (if s.fan.isOn then false else s.fan.oscillate),
      Act.homekit_update_char])
  | Event_id.oscillate =>
    ({ s with fan := { s.fan with oscillate := !s.fan.oscillate } },
     (if s.fan.isOn then [Act.relay_write_oscillate (!s.fan.oscillate)] else []) ++
       [Act.homekit_update_char])
  | Event_id.speed =>
    if !s.fan.isOn then (s, [Act.homekit_update_char])
    else
      let next_speed : Int := ((s.fan.speed - 1 - 1 + SPEED_4).tmod SPEED_4) + 1
      ({ s with fan := { s.fan with speed := next_speed } },
       [Act.relay_write_speed next_speed, Act.homekit_update_char])
  | Event_id.time =>
    ({ s with led_enable := !s.led_enable },
     [Act.led_write_enable (!s.led_enable), Act.homekit_update_char])
  | Event_id.temperature =>
    ({ s with led_enable := !s.led_enable },
     [Act.led_write_enable (!s.led_enable), Act.homekit_update_char])

/-- Dispatch switch of Lasko_event_handler in main.c: one dequeued event is
routed to its handler by source. -/
def dispatch (s : SysState) (event : Fan_event_t) : SysState × List Act :=
  match event.source with
  | Event_source.homekit => handle_homekit s event
  | Event_source.button => handle_button s event
  | Event_source.remote => handle_remote s event

/-- State part of dispatch. -/
def step (s : SysState) (event : Fan_event_t) : SysState :=
  (dispatch s event).1

/-- Initial state set in app_main (main.c lines 124-127) together with the
g_Led_enable = true initialisation of Led_init. -/
def initSys : SysState :=
  { fan := { isOn := false, oscillate := false, speed := SPEED_4 }, led_enable := true }

/-- Run of the event-handler loop over a list of dequeued events. -/
def run (events : List Fan_event_t) : SysState :=
  events.foldl step initSys

/-- Commands that the three producers can actually put in the queue:
button interrupts send ID_POWER or ID_OSCILLATE with no argument; the remote
decoder sends any of the five ids with zero argument; the HomeKit write
callback sends ID_POWER / ID_OSCILLATE with a boolean argument or ID_SPEED
with an argument binned into SPEED_OFF..SPEED_4. -/
def ValidCmd (e : Fan_event_t) : Prop :=
  (e.source = Event_source.button ∧
     (e.id = Event_id.power ∨ e.id = Event_id.oscillate) ∧ e.arg = 0) ∨
  (e.source = Event_source.remote ∧ e.arg = 0) ∨
  (e.source = Event_source.homekit ∧
     (((e.id = Event_id.power ∨ e.id = Event_id.oscillate) ∧ (e.arg = 0 ∨ e.arg = 1)) ∨
      (e.id = Event_id.speed ∧ 0 ≤ e.arg ∧ e.arg ≤ 4)))

instance (e : Fan_event_t) : Decidable (ValidCmd e) := by
  unfold ValidCmd
  infer_instance

/-! ## Button debounce (button.c) -/

/-- Constant MIN_TIME_BETWEEN_PRESS from button.c: 250 * 1000 microseconds. -/
def MIN_TIME_BETWEEN_PRESS : Int := 250 * 1000

/-- Functions power_interrupt / oscillate_interrupt from button.c, which are
identical except for the event id.  prev_time_us is the stored int64 time of
the last accepted edge; time_us the current monotonic time.  Result: the new
prev_time_us and the command enqueued, if any (the bounce branch neither
enqueues nor updates the clock). -/
def button_interrupt (id : Event_id) (prev_time_us time_us : Int) :
    Int × Option Fan_event_t :=
  if time_us - prev_time_us < MIN_TIME_BETWEEN_PRESS then (prev_time_us, none)
  else (time_us, some ⟨Event_source.button, id, 0⟩)

/-- Fold of button_interrupt over a sequence of timed edges, collecting the
enqueued commands in order. -/
def run_edges (prev_time_us : Int) : List (Event_id × Int) → Int × List Fan_event_t
  | [] => (prev_time_us, [])
  | (id, t) :: rest =>
    let r := button_interrupt id prev_time_us t
    let rr := run_edges r.1 rest
    (rr.1, r.2.toList ++ rr.2)

/-! ## Speed relays (relay.c) -/

/-- GPIO levels from main.h; the relays are active-low, so a speed relay is
asserted exactly when its pin is at GPIO_LOW. -/
def GPIO_LOW : Nat := 0
def GPIO_HIGH : Nat := 1

/-- GPIO pin numbers of the four speed relays (the C macros are named
FAN_SPEEDx_RELAY_GPIO in main.h): speed 1..4 map to GPIO 3..6. -/
def FAN_SPEED1_RELAY_GPIO_NUM : Nat := 3
def FAN_SPEED2_RELAY_GPIO_NUM : Nat := 4
def FAN_SPEED3_RELAY_GPIO_NUM : Nat := 5
def FAN_SPEED4_RELAY_GPIO_NUM : Nat := 6

/-- Levels of the four speed-relay GPIO pins. -/
structure RelayPins where
  speed1 : Nat
  speed2 : Nat
  speed3 : Nat
  speed4 : Nat
deriving DecidableEq, Repr

/-- Function gpio_set_level restricted to the four speed-relay pins; writes to
any other pin leave these outputs unchanged. -/
def gpio_set_level (p : RelayPins) (pin level : Nat) : RelayPins :=
  if pin = FAN_SPEED1_RELAY_GPIO_NUM then { p with speed1 := level }
  else if pin = FAN_SPEED2_RELAY_GPIO_NUM then { p with speed2 := level }
  else if pin = FAN_SPEED3_RELAY_GPIO_NUM then { p with speed3 := level }
  else if pin = FAN_SPEED4_RELAY_GPIO_NUM then { p with speed4 := level }
  else p

/-- Pin selected by the switch in Relay_write_speed; none for SPEED_OFF and
for the default (invalid speed) arm, both of which return with all speed
relays cleared. -/
def relay_speed_gpio (speed : Int) : Option Nat :=
  if speed = SPEED_1 then some FAN_SPEED1_RELAY_GPIO_NUM
  else if speed = SPEED_2 then some FAN_SPEED2_RELAY_GPIO_NUM
  else if speed = SPEED_3 then some FAN_SPEED3_RELAY_GPIO_NUM
  else if speed = SPEED_4 then some FAN_SPEED4_RELAY_GPIO_NUM
  else none

/-- The loop in Relay_write_speed that disables all speed relays, in array
order. -/
def relay_clear_writes : List (Nat × Nat) :=
  [(FAN_SPEED1_RELAY_GPIO_NUM, GPIO_HIGH), (FAN_SPEED2_RELAY_GPIO_NUM, GPIO_HIGH),
   (FAN_SPEED3_RELAY_GPIO_NUM, GPIO_HIGH), (FAN_SPEED4_RELAY_GPIO_NUM, GPIO_HIGH)]

/-- Function Relay_write_speed from relay.c, as the ordered sequence of
gpio_set_level calls it performs.  state_speed / state_on are the fields of
g_Fan_state read by the redundancy guard at the top; speed is the argument.
A redundant call performs no writes; every other call first emits the four
clearing writes and then at most one assertion at GPIO_LOW. -/
def Relay_write_speed_writes (state_speed : Int) (state_on : Bool) (speed : Int) :
    List (Nat × Nat) :=
  if state_speed = speed ∧ state_on = true then []
  else
    relay_clear_writes ++
      (match relay_speed_gpio speed with
       | some gpio_num => [(gpio_num, GPIO_LOW)]
       | none => [])

/-- Pin state after a list of gpio_set_level calls. -/
def apply_writes (p : RelayPins) : List (Nat × Nat) → RelayPins
  | [] => p
  | w :: ws => apply_writes (gpio_set_level p w.1 w.2) ws

/-- All intermediate pin states reached while performing a list of
gpio_set_level calls (one entry per call, after that call). -/
def write_states (p : RelayPins) : List (Nat × Nat) → List RelayPins
  | [] => []
  | w :: ws =>
    let q := gpio_set_level p w.1 w.2
    q :: write_states q ws

/-- Concatenated write sequence of a list of Relay_write_speed calls, each
given as (g_Fan_state.speed, g_Fan_state.on, speed argument) at call time. -/
def calls_writes (calls : List (Int × Bool × Int)) : List (Nat × Nat) :=
  match calls with
  | [] => []
  | c :: cs => Relay_write_speed_writes c.1 c.2.1 c.2.2 ++ calls_writes cs

/-- Number of asserted (active-low, level GPIO_LOW) speed relay outputs. -/
def asserted_count (p : RelayPins) : Nat :=
  (if p.speed1 = GPIO_LOW then 1 else 0) + (if p.speed2 = GPIO_LOW then 1 else 0) +
  (if p.speed3 = GPIO_LOW then 1 else 0) + (if p.speed4 = GPIO_LOW then 1 else 0)

/-- Pin state established by Relay_init: every relay starts at GPIO_HIGH. -/
def relay_init_pins : RelayPins :=
  { speed1 := GPIO_HIGH, speed2 := GPIO_HIGH, speed3 := GPIO_HIGH, speed4 := GPIO_HIGH }

/-! ## Concrete test vectors -/

/-- Symbol with the nominal logic-0 timing (1200 us mark, 400 us space). -/
def zeroSym : RmtSymbol := ⟨1200, 400⟩

/-- Symbol with the nominal logic-1 timing (400 us mark, 1200 us space). -/
def oneSym : RmtSymbol := ⟨400, 1200⟩

/-- Symbol matching neither bit template. -/
def badSym : RmtSymbol := ⟨800, 800⟩

/-- The 11 bits of IR_CODE_POWER = 0x13F, most significant first. -/
def powerBits : List Bool :=
  [false, false, true, false, false, true, true, true, true, true, true]

/-- Nominal-timing symbols for a list of bits. -/
def bitsToSyms (bits : List Bool) : List RmtSymbol :=
  bits.map (fun b => if b then oneSym else zeroSym)

/-- The Command that the decoder enqueues for the power code. -/
def power_event : Fan_event_t := ⟨Event_source.remote, Event_id.power, 0⟩

/-- Button power Command as built by power_interrupt. -/
def button_power_event : Fan_event_t := ⟨Event_source.button, Event_id.power, 0⟩

/-- Remote speed Command as enqueued by the IR decoder. -/
def remote_speed_event : Fan_event_t := ⟨Event_source.remote, Event_id.speed, 0⟩

/-- The 48-pair frame of claim C1: one corrupted pair, then an intact power
code, then 36 logic-0 pairs. -/
def c1_frame : List RmtSymbol :=
  badSym :: bitsToSyms powerBits ++ List.replicate 36 zeroSym

/-- The 48-pair frame of claim C8: an intact power code, then a logic-1 pair
reached with bit_index = 11, then 36 logic-0 pairs. -/
def c8_frame : List RmtSymbol :=
  bitsToSyms powerBits ++ oneSym :: List.replicate 36 zeroSym

/-! ## Supporting lemmas -/

/-- Within an 11-bit window the size_t shift-amount expression does not wrap:
it is 10 - bit_index. -/
lemma shift_amt_eq {bit_index : Nat} (h : bit_index ≤ 10) :
    shift_amt bit_index = 10 - bit_index := by
  unfold shift_amt NUM_SYMBOL_EXPECTED U32
  omega

/-- Lists related by encodesBits have the same length. -/
lemma encodesBits_length : ∀ {syms : List RmtSymbol} {bits : List Bool},
    encodesBits syms bits = true → syms.length = bits.length := by
  intro syms
  induction syms with
  | nil => intro bits h; cases bits with
    | nil => rfl
    | cons b bs => simp [encodesBits] at h
  | cons sym ss ih =>
    intro bits h
    cases bits with
    | nil => simp [encodesBits] at h
    | cons b bs =>
      simp only [encodesBits, Bool.and_eq_true, beq_iff_eq] at h
      simp [ih h.2]

/-- Only the empty symbol list encodes the empty bit list. -/
lemma encodesBits_nil {syms : List RmtSymbol}
    (h : encodesBits syms [] = true) : syms = [] := by
  cases syms with
  | nil => rfl
  | cons s ss => simp [encodesBits] at h

/-- Execution of parse_loop across one complete 11-bit window: if the symbols
up to bit_index 11 classify as the given bits, the loop accumulates them and
then consults the command table, emitting the command on a hit and resetting
both counters on a miss. -/
lemma parse_loop_window : ∀ (bits : List Bool) (syms rest : List RmtSymbol)
    (code bit_index : Nat),
    encodesBits syms bits = true → bit_index + bits.length = 11 → bits ≠ [] →
    parse_loop (syms ++ rest) code bit_index =
      (match is_command (accumCode code bit_index bits) with
       | some ev =>
         let r := parse_loop rest (accumCode code bit_index bits) 11
         (ev :: r.1, r.2)
       | none => parse_loop rest 0 0) := by
  intro bits
  induction bits with
  | nil => intro syms rest code bit_index henc hlen hne; exact absurd rfl hne
  | cons b bs ih =>
    intro syms rest code bit_index henc hlen hne
    cases syms with
    | nil => simp [encodesBits] at henc
    | cons sym ss =>
      simp only [encodesBits, Bool.and_eq_true, beq_iff_eq] at henc
      obtain ⟨⟨h1, h0⟩, henc⟩ := henc
      have hbi : bit_index ≤ 10 := by
        simp only [List.length_cons] at hlen; omega
      have hsh : shift_amt bit_index = 10 - bit_index := shift_amt_eq hbi
      have hnub : ¬ 31 ≤ shift_amt bit_index := by omega
      cases b with
      | true =>
        simp only [List.cons_append, parse_loop, h1, if_true, if_neg hnub]
        cases bs with
        | nil =>
          have hss : ss = [] := encodesBits_nil henc
          subst hss
          have h11 : bit_index + 1 = NUM_SYMBOL_EXPECTED := by
            simp only [List.length_cons, List.length_nil] at hlen
            simp only [NUM_SYMBOL_EXPECTED]; omega
          simp only [h11, if_true]
          rfl
        | cons b2 bs2 =>
          have hlt : bit_index + 1 ≠ NUM_SYMBOL_EXPECTED := by
            simp only [List.length_cons] at hlen
            simp only [NUM_SYMBOL_EXPECTED]; omega
          simp only [if_neg hlt]
          exact ih ss rest _ (bit_index + 1) henc (by
            simp only [List.length_cons] at hlen ⊢; omega) (by simp)
      | false =>
        have h1f : parse_logic1 sym = false := h1
        have h0t : parse_logic0 sym = true := by simpa using h0
        simp only [List.cons_append, parse_loop, h1f, Bool.false_eq_true,
          if_false, h0t, if_true]
        cases bs with
        | nil =>
          have hss : ss = [] := encodesBits_nil henc
          subst hss
          have h11 : bit_index + 1 = NUM_SYMBOL_EXPECTED := by
            simp only [List.length_cons, List.length_nil] at hlen
            simp only [NUM_SYMBOL_EXPECTED]; omega
          simp only [h11, if_true]
          rfl
        | cons b2 bs2 =>
          have hlt : bit_index + 1 ≠ NUM_SYMBOL_EXPECTED := by
            simp only [List.length_cons] at hlen
            simp only [NUM_SYMBOL_EXPECTED]; omega
          simp only [if_neg hlt]
          exact ih ss rest _ (bit_index + 1) henc (by
            simp only [List.length_cons] at hlen ⊢; omega) (by simp)

/-- Commands produced by the IR code table always carry the Remote source. -/
lemma is_command_source {ir_code : Nat} {ev : Fan_event_t}
    (h : is_command ir_code = some ev) : ev.source = Event_source.remote := by
  unfold is_command at h
  split_ifs at h
  all_goals simp only [Option.some.injEq] at h
  all_goals subst h
  all_goals rfl

/-! ## Claim theorems -/

/-- Claim C1, counterexample: the 48-pair frame c1_frame starts with a pair
matching neither template and continues with an intact power code, yet
parse_ir_code emits no Command at all, refuting the claim that the decoder
continues classifying the remaining pairs after a corrupted pair. -/
theorem c1_counterexample :
    c1_frame.length = 48 ∧
    parse_logic1 badSym = false ∧ parse_logic0 badSym = false ∧
    encodesBits ((c1_frame.drop 1).take 11) powerBits = true ∧
    is_command (accumCode 0 0 powerBits) = some power_event ∧
    parse_ir_code c1_frame = ([], true) := by
  decide

/-- Claim C1, amended: a pair matching neither bit template aborts decoding of
the whole remainder of the frame, whatever the accumulator state: no further
pair is classified and no further Command is emitted (only an 11-bit table
miss restarts accumulation within a frame). -/
theorem c1_bad_pair_aborts_frame (sym : RmtSymbol) (rest : List RmtSymbol)
    (ir_code bit_index : Nat) (h1 : parse_logic1 sym = false)
    (h0 : parse_logic0 sym = false) :
    parse_loop (sym :: rest) ir_code bit_index = ([], true) := by
  simp [parse_loop, h1, h0]

/-- Witness for the amended C1 theorem at a concrete corrupted pair. -/
theorem c1_witness :
    parse_loop (badSym :: bitsToSyms powerBits) 0 0 = ([], true) :=
  c1_bad_pair_aborts_frame badSym (bitsToSyms powerBits) 0 0
    (by decide) (by decide)

/-- Claim C3: a 48-pair frame whose first 11 pairs classify as bits that
accumulate (most significant first, as accumCode does) to a code in the
five-entry table makes the decoder enqueue the mapped Remote-sourced Command;
the table maps exactly Power=0x13F, Oscillate=0x13B, Speed=0x13D, Time=0x13E,
Temperature=0x12F; and a frame whose pair count is not 48 is discarded whole,
emitting nothing. -/
theorem c3_frame_decode :
    (∀ (syms : List RmtSymbol) (bits : List Bool) (ev : Fan_event_t),
       syms.length = 48 → encodesBits (syms.take 11) bits = true →
       is_command (accumCode 0 0 bits) = some ev →
       ev.source = Event_source.remote ∧ ev ∈ (parse_ir_code syms).1) ∧
    (is_command IR_CODE_POWER = some ⟨Event_source.remote, Event_id.power, 0⟩ ∧
     is_command IR_CODE_OSCILLATE = some ⟨Event_source.remote, Event_id.oscillate, 0⟩ ∧
     is_command IR_CODE_SPEED = some ⟨Event_source.remote, Event_id.speed, 0⟩ ∧
     is_command IR_CODE_TIME = some ⟨Event_source.remote, Event_id.time, 0⟩ ∧
     is_command IR_CODE_TEMPERATURE = some ⟨Event_source.remote, Event_id.temperature, 0⟩) ∧
    (∀ syms : List RmtSymbol,
       syms.length ≠ 48 → parse_ir_code syms = ([], true)) := by
  refine ⟨?_, by decide, ?_⟩
  · intro syms bits ev hlen henc hcmd
    have hb : bits.length = 11 := by
      have h := encodesBits_length henc
      rw [List.length_take, hlen] at h
      omega
    refine ⟨is_command_source hcmd, ?_⟩
    unfold parse_ir_code
    rw [if_neg (by simp [hlen, RMT_MAX_MEM_SYMBOLS])]
    rw [← List.take_append_drop 11 syms]
    rw [parse_loop_window bits (syms.take 11) (syms.drop 11) 0 0 henc
      (by omega) (by intro hh; rw [hh] at hb; simp at hb)]
    rw [hcmd]
    exact List.mem_cons_self _ _
  · intro syms h
    unfold parse_ir_code
    rw [if_pos (by simp [RMT_MAX_MEM_SYMBOLS, h])]

/-- Witness for C3 on a concrete power frame and a concrete 47-pair frame. -/
theorem c3_witness :
    (power_event.source = Event_source.remote ∧
     power_event ∈ (parse_ir_code (bitsToSyms powerBits ++ List.replicate 37 zeroSym)).1) ∧
    parse_ir_code (List.replicate 47 zeroSym) = ([], true) :=
  ⟨c3_frame_decode.1 (bitsToSyms powerBits ++ List.replicate 37 zeroSym)
      powerBits power_event (by decide) (by decide) (by decide),
   c3_frame_decode.2.2 (List.replicate 47 zeroSym) (by decide)⟩

/-- Claim C8: evaluation at the failing input.  On the 48-pair frame c8_frame
the first 11 pairs decode to the power code (the Command is enqueued), and the
very next pair is a logic-1 pair reached with bit_index = 11, where the C
shift amount NUM_SYMBOL_EXPECTED - bit_index - 1 underflows size_t to
2^32 - 1, far outside 0..10 (1 << amount is undefined behaviour); the run is
marked by the false flag. -/
theorem c8_shift_out_of_range :
    c8_frame.length = 48 ∧
    encodesBits (c8_frame.take 11) powerBits = true ∧
    is_command (accumCode 0 0 powerBits) = some power_event ∧
    parse_logic1 oneSym = true ∧
    shift_amt 11 = U32 - 1 ∧ ¬ shift_amt 11 ≤ 10 ∧
    parse_ir_code c8_frame = ([power_event], false) := by
  decide

/-- Claim C9, counterexample: a mark or space deviating from its template by
exactly 200 us is rejected by the strict comparisons of check_in_range, so the
pair (1400, 600) does not classify as logic 0 and (200, 1000) does not
classify as logic 1, contrary to the claim. -/
theorem c9_counterexample :
    parse_logic0 ⟨1400, 600⟩ = false ∧ parse_logic1 ⟨200, 1000⟩ = false := by
  decide

/-- Claim C9, amended: a duration matches a template exactly when it lies
strictly within the 200 us margin (both comparisons strict), so a deviation of
exactly 200 us is out of tolerance and the two boundary pairs of the claim do
not classify, while pairs strictly inside the margin do. -/
theorem c9_strict_tolerance :
    (∀ signal_duration spec_duration : Nat,
       DURATION_ERROR_MARGIN ≤ spec_duration →
       spec_duration + DURATION_ERROR_MARGIN < U32 →
       (check_in_range signal_duration spec_duration = true ↔
         (spec_duration - DURATION_ERROR_MARGIN < signal_duration ∧
          signal_duration < spec_duration + DURATION_ERROR_MARGIN))) ∧
    parse_logic0 ⟨1400, 600⟩ = false ∧ parse_logic1 ⟨200, 1000⟩ = false ∧
    parse_logic0 ⟨1399, 599⟩ = true ∧ parse_logic1 ⟨201, 1001⟩ = true := by
  refine ⟨?_, by decide, by decide, by decide, by decide⟩
  intro signal_duration spec_duration hlo hhi
  simp only [check_in_range, Bool.and_eq_true, decide_eq_true_eq,
    DURATION_ERROR_MARGIN, U32] at *
  omega

/-- Witness for C9 at the template value 400 with a strictly-inside signal. -/
theorem c9_witness : check_in_range 599 400 = true :=
  (c9_strict_tolerance.1 599 400 (by decide) (by decide)).mpr
    ⟨by decide, by decide⟩

/-- Claim C2: from {on:false, speed:4} five Button/Power commands cycle the
state through on/4, on/3, on/2, on/1 and back to off with the stored speed
reset to 4; each non-off step writes the new speed and the stored oscillate
flag to the actuators, and the off step writes SPEED_OFF and oscillate=false.
The stored oscillate flag and the LED-enable flag are arbitrary. -/
theorem c2_button_power_cycle (b led : Bool) :
    let g0 : SysState := ⟨⟨false, b, 4⟩, led⟩
    let d1 := handle_button g0 button_power_event
    let d2 := handle_button d1.1 button_power_event
    let d3 := handle_button d2.1 button_power_event
    let d4 := handle_button d3.1 button_power_event
    let d5 := handle_button d4.1 button_power_event
    d1 = (⟨⟨true, b, 4⟩, led⟩,
      [Act.relay_write_speed 4, Act.relay_write_oscillate b,
       Act.homekit_update_char]) ∧
    d2 = (⟨⟨true, b, 3⟩, led⟩,
      [Act.relay_write_speed 3, Act.relay_write_oscillate b,
       Act.homekit_update_char]) ∧
    d3 = (⟨⟨true, b, 2⟩, led⟩,
      [Act.relay_write_speed 2, Act.relay_write_oscillate b,
       Act.homekit_update_char]) ∧
    d4 = (⟨⟨true, b, 1⟩, led⟩,
      [Act.relay_write_speed 1, Act.relay_write_oscillate b,
       Act.homekit_update_char]) ∧
    d5 = (⟨⟨false, b, 4⟩, led⟩,
      [Act.relay_write_speed 0, Act.relay_write_oscillate false,
       Act.homekit_update_char]) := by
  cases b <;> cases led <;> decide

/-- Claim C4: a Remote/Speed command is a complete no-op on the fan state and
the relays when the fan is off (only the unconditional HomeKit mirror call
happens); when the fan is on with stored speed 1..4 the handler computes the
next-lower speed with wraparound 1 to 4, writes it to the speed relays, stores
it, and the result is never SPEED_OFF. -/
theorem c4_remote_speed (s : SysState) :
    (s.fan.isOn = false →
       handle_remote s remote_speed_event = (s, [Act.homekit_update_char])) ∧
    (s.fan.isOn = true → 1 ≤ s.fan.speed → s.fan.speed ≤ 4 →
       handle_remote s remote_speed_event =
         ({ s with fan := { s.fan with
             speed := if s.fan.speed = 1 then 4 else s.fan.speed - 1 } },
          [Act.relay_write_speed (if s.fan.speed = 1 then 4 else s.fan.speed - 1),
           Act.homekit_update_char]) ∧
       (1 : Int) ≤ (if s.fan.speed = 1 then 4 else s.fan.speed - 1)) := by
  constructor
  · intro h
    simp [handle_remote, remote_speed_event, h]
  · intro hOn h1 h4
    have hs : s.fan.speed = 1 ∨ s.fan.speed = 2 ∨ s.fan.speed = 3 ∨
        s.fan.speed = 4 := by omega
    rcases hs with h | h | h | h <;>
      simp [handle_remote, remote_speed_event, hOn, h, SPEED_4]
    all_goals decide

/-- Witness for C4 at a concrete off state and at the wraparound state
{on, speed:1}. -/
theorem c4_witness :
    handle_remote ⟨⟨false, false, 2⟩, true⟩ remote_speed_event =
      (⟨⟨false, false, 2⟩, true⟩, [Act.homekit_update_char]) ∧
    handle_remote ⟨⟨true, false, 1⟩, true⟩ remote_speed_event =
      (⟨⟨true, false, 4⟩, true⟩,
       [Act.relay_write_speed 4, Act.homekit_update_char]) := by
  refine ⟨(c4_remote_speed ⟨⟨false, false, 2⟩, true⟩).1 rfl, ?_⟩
  have h := ((c4_remote_speed ⟨⟨true, false, 1⟩, true⟩).2 rfl
    (by norm_num) (by norm_num)).1
  simpa using h

/-- Claim C10: for every state, a Button/Oscillate command and a
Remote/Oscillate command run the very same handler code: equal resulting
state and equal actuator-call sequence; both flip the stored oscillate flag,
write the flipped value exactly when the fan is on, and end with the HomeKit
mirror call. -/
theorem c10_oscillate_equiv (s : SysState) (a1 a2 : Int) :
    handle_button s ⟨Event_source.button, Event_id.oscillate, a1⟩ =
      handle_remote s ⟨Event_source.remote, Event_id.oscillate, a2⟩ ∧
    (handle_button s ⟨Event_source.button, Event_id.oscillate, a1⟩).1 =
      { s with fan := { s.fan with oscillate := !s.fan.oscillate } } ∧
    (handle_button s ⟨Event_source.button, Event_id.oscillate, a1⟩).2 =
      (if s.fan.isOn then [Act.relay_write_oscillate (!s.fan.oscillate)]
       else []) ++ [Act.homekit_update_char] :=
  ⟨rfl, rfl, rfl⟩

/-- Claim C5: a button edge is accepted (Command built and enqueued, debounce
clock moved to the edge time) exactly when at least 250 ms = 250000 us have
passed since the last accepted edge; two edges under 250 ms apart yield at
most one Command and edges at least 250 ms apart each yield one. -/
theorem c5_debounce :
    (∀ (id : Event_id) (prev_time_us time_us : Int),
       (MIN_TIME_BETWEEN_PRESS ≤ time_us - prev_time_us →
          button_interrupt id prev_time_us time_us =
            (time_us, some ⟨Event_source.button, id, 0⟩)) ∧
       (time_us - prev_time_us < MIN_TIME_BETWEEN_PRESS →
          button_interrupt id prev_time_us time_us = (prev_time_us, none))) ∧
    (∀ (id1 id2 : Event_id) (prev t1 t2 : Int),
       t2 - t1 < MIN_TIME_BETWEEN_PRESS →
       (run_edges prev [(id1, t1), (id2, t2)]).2.length ≤ 1) ∧
    (∀ (id1 id2 : Event_id) (prev t1 t2 : Int),
       MIN_TIME_BETWEEN_PRESS ≤ t1 - prev →
       MIN_TIME_BETWEEN_PRESS ≤ t2 - t1 →
       (run_edges prev [(id1, t1), (id2, t2)]).2 =
         [⟨Event_source.button, id1, 0⟩, ⟨Event_source.button, id2, 0⟩]) := by
  refine ⟨?_, ?_, ?_⟩
  · intro id prev t
    constructor <;> intro h <;> unfold button_interrupt
    · rw [if_neg (by omega)]
    · rw [if_pos h]
  · intro id1 id2 prev t1 t2 h
    simp only [run_edges, button_interrupt]
    split_ifs <;> simp_all
  · intro id1 id2 prev t1 t2 hp h
    simp only [run_edges, button_interrupt]
    split_ifs <;> simp_all <;> omega

/-- Witness for C5 at concrete edge times around the 250000 us window. -/
theorem c5_witness :
    button_interrupt Event_id.power 0 250000 =
      (250000, some ⟨Event_source.button, Event_id.power, 0⟩) ∧
    button_interrupt Event_id.power 0 249999 = (0, none) ∧
    (run_edges 0 [(Event_id.power, 300000), (Event_id.power, 400000)]).2.length ≤ 1 ∧
    (run_edges 0 [(Event_id.power, 250000), (Event_id.oscillate, 500000)]).2 =
      [⟨Event_source.button, Event_id.power, 0⟩,
       ⟨Event_source.button, Event_id.oscillate, 0⟩] :=
  ⟨(c5_debounce.1 Event_id.power 0 250000).1 (by norm_num [MIN_TIME_BETWEEN_PRESS]),
   (c5_debounce.1 Event_id.power 0 249999).2 (by norm_num [MIN_TIME_BETWEEN_PRESS]),
   c5_debounce.2.1 Event_id.power Event_id.power 0 300000 400000
     (by norm_num [MIN_TIME_BETWEEN_PRESS]),
   c5_debounce.2.2 Event_id.power Event_id.oscillate 0 250000 500000
     (by norm_num [MIN_TIME_BETWEEN_PRESS]) (by norm_num [MIN_TIME_BETWEEN_PRESS])⟩

/-- The switch in Relay_write_speed selects one of the four speed-relay pins
or nothing. -/
lemma relay_speed_gpio_cases (speed : Int) :
    relay_speed_gpio speed = none ∨ relay_speed_gpio speed = some 3 ∨
    relay_speed_gpio speed = some 4 ∨ relay_speed_gpio speed = some 5 ∨
    relay_speed_gpio speed = some 6 := by
  unfold relay_speed_gpio FAN_SPEED1_RELAY_GPIO_NUM FAN_SPEED2_RELAY_GPIO_NUM
    FAN_SPEED3_RELAY_GPIO_NUM FAN_SPEED4_RELAY_GPIO_NUM
  split_ifs <;> simp

/-- Intermediate states seen during the writes of the concatenation of two
write lists. -/
lemma write_states_append (ws1 ws2 : List (Nat × Nat)) (p : RelayPins) :
    write_states p (ws1 ++ ws2) =
      write_states p ws1 ++ write_states (apply_writes p ws1) ws2 := by
  induction ws1 generalizing p with
  | nil => simp [write_states, apply_writes]
  | cons w ws ih => simp [write_states, apply_writes, ih]

/-- Pin states visited while the clearing loop of Relay_write_speed runs. -/
lemma write_states_clear (a b c d : Nat) :
    write_states ⟨a, b, c, d⟩ relay_clear_writes =
      [⟨1, b, c, d⟩, ⟨1, 1, c, d⟩, ⟨1, 1, 1, d⟩, ⟨1, 1, 1, 1⟩] := rfl

/-- Pin state after the clearing loop of Relay_write_speed. -/
lemma apply_writes_clear (a b c d : Nat) :
    apply_writes ⟨a, b, c, d⟩ relay_clear_writes = ⟨1, 1, 1, 1⟩ := rfl

/-- Pin state after a list of writes split at a concatenation. -/
lemma apply_writes_append (ws1 ws2 : List (Nat × Nat)) (p : RelayPins) :
    apply_writes p (ws1 ++ ws2) = apply_writes (apply_writes p ws1) ws2 := by
  induction ws1 generalizing p with
  | nil => simp [apply_writes]
  | cons w ws ih => simp [apply_writes, ih]

/-- Asserting any single pin from the all-cleared state leaves at most one
speed relay asserted. -/
lemma relay_assert_state (g : Nat) :
    asserted_count (gpio_set_level ⟨1, 1, 1, 1⟩ g GPIO_LOW) ≤ 1 := by
  unfold gpio_set_level GPIO_LOW
  split_ifs <;> decide

/-- One Relay_write_speed call keeps the at-most-one-asserted invariant at
every intermediate gpio_set_level write and at the end. -/
lemma relay_call_safe (state_speed : Int) (state_on : Bool) (speed : Int)
    (p : RelayPins) (h : asserted_count p ≤ 1) :
    (∀ q ∈ write_states p (Relay_write_speed_writes state_speed state_on speed),
       asserted_count q ≤ 1) ∧
    asserted_count
      (apply_writes p (Relay_write_speed_writes state_speed state_on speed)) ≤ 1 := by
  unfold Relay_write_speed_writes
  split_ifs with hg
  · exact ⟨fun q hq => absurd hq (by simp [write_states]), by
      simpa [apply_writes] using h⟩
  · obtain ⟨a, b, c, d⟩ := p
    constructor
    · intro q hq
      rw [write_states_append, write_states_clear, apply_writes_clear] at hq
      rcases List.mem_append.mp hq with hq | hq
      · simp only [List.mem_cons, List.not_mem_nil, or_false] at hq
        rcases hq with rfl | rfl | rfl | rfl <;>
          simp [asserted_count, GPIO_LOW] at h ⊢ <;>
          split_ifs at h ⊢ <;> omega
      · cases hopt : relay_speed_gpio speed with
        | none => rw [hopt] at hq; simp [write_states] at hq
        | some g =>
          rw [hopt] at hq
          simp only [write_states, List.mem_cons, List.not_mem_nil,
            or_false] at hq
          subst hq
          exact relay_assert_state g
    · rw [apply_writes_append, apply_writes_clear]
      cases relay_speed_gpio speed with
      | none => decide
      | some g => exact relay_assert_state g

/-- Every state reached during any sequence of Relay_write_speed calls keeps
at most one speed relay asserted, starting from a state with at most one
asserted. -/
lemma relay_calls_safe : ∀ (calls : List (Int × Bool × Int)) (p : RelayPins),
    asserted_count p ≤ 1 →
    ∀ q ∈ write_states p (calls_writes calls), asserted_count q ≤ 1 := by
  intro calls
  induction calls with
  | nil => intro p h q hq; simp [calls_writes, write_states] at hq
  | cons c cs ih =>
    intro p h q hq
    rw [calls_writes, write_states_append] at hq
    rcases List.mem_append.mp hq with hq | hq
    · exact (relay_call_safe c.1 c.2.1 c.2.2 p h).1 q hq
    · exact ih _ (relay_call_safe c.1 c.2.1 c.2.2 p h).2 q hq

/-- Claim C6: starting from the Relay_init state (all speed relays cleared),
after every single gpio_set_level write performed by any sequence of
Relay_write_speed calls at most one speed relay output is asserted; moreover
each call either writes nothing (redundancy guard) or first emits the four
clearing writes and then at most one assertion at GPIO_LOW. -/
theorem c6_no_two_relays_asserted :
    (∀ (calls : List (Int × Bool × Int)) (q : RelayPins),
       q ∈ write_states relay_init_pins (calls_writes calls) →
       asserted_count q ≤ 1) ∧
    (∀ (state_speed : Int) (state_on : Bool) (speed : Int),
       Relay_write_speed_writes state_speed state_on speed = [] ∨
       ((Relay_write_speed_writes state_speed state_on speed).take 4 =
          relay_clear_writes ∧
        (Relay_write_speed_writes state_speed state_on speed).length ≤ 5 ∧
        ∀ w ∈ (Relay_write_speed_writes state_speed state_on speed).drop 4,
          w.2 = GPIO_LOW)) := by
  constructor
  · intro calls q hq
    exact relay_calls_safe calls relay_init_pins (by decide) q hq
  · intro state_speed state_on speed
    unfold Relay_write_speed_writes
    split_ifs with hg
    · exact Or.inl rfl
    · refine Or.inr ?_
      rcases relay_speed_gpio_cases speed with hc | hc | hc | hc | hc <;>
        rw [hc] <;> simp [relay_clear_writes, GPIO_LOW]

/-- Witness for C6 on the concrete call sequence off-state write of speed 2:
the final state asserts exactly the speed-2 relay. -/
theorem c6_witness : asserted_count ⟨1, 0, 1, 1⟩ ≤ 1 :=
  c6_no_two_relays_asserted.1 [(0, false, 2)] ⟨1, 0, 1, 1⟩ (by decide)

/-- One dispatched producer command keeps the stored speed in SPEED_1..SPEED_4. -/
lemma c7_step_preserves (s : SysState) (e : Fan_event_t) (hV : ValidCmd e)
    (h1 : 1 ≤ s.fan.speed) (h4 : s.fan.speed ≤ 4) :
    1 ≤ (step s e).fan.speed ∧ (step s e).fan.speed ≤ 4 := by
  have hs : s.fan.speed = 1 ∨ s.fan.speed = 2 ∨ s.fan.speed = 3 ∨
      s.fan.speed = 4 := by omega
  rcases hV with ⟨hsrc, hid, _⟩ | ⟨hsrc, _⟩ | ⟨hsrc, hrest⟩
  · -- button source
    rcases hid with hid | hid
    · cases hOn : s.fan.isOn <;> rcases hs with h | h | h | h <;>
        simp [step, dispatch, handle_button, hsrc, hid, hOn, h, NUM_SPEED,
          SPEED_OFF, SPEED_4] <;> decide
    · simp [step, dispatch, handle_button, hsrc, hid]
      omega
  · -- remote source
    have hid5 : e.id = Event_id.power ∨ e.id = Event_id.oscillate ∨
        e.id = Event_id.time ∨ e.id = Event_id.speed ∨
        e.id = Event_id.temperature := by cases e.id <;> simp
    rcases hid5 with hid | hid | hid | hid | hid
    · simp [step, dispatch, handle_remote, hsrc, hid]
      omega
    · simp [step, dispatch, handle_remote, hsrc, hid]
      omega
    · simp [step, dispatch, handle_remote, hsrc, hid]
      omega
    · cases hOn : s.fan.isOn
      · simp [step, dispatch, handle_remote, hsrc, hid, hOn]
        omega
      · rcases hs with h | h | h | h <;>
          simp [step, dispatch, handle_remote, hsrc, hid, hOn, h, SPEED_4] <;>
          decide
    · simp [step, dispatch, handle_remote, hsrc, hid]
      omega
  · -- homekit source
    rcases hrest with ⟨hid, _⟩ | ⟨hid, ha0, ha4⟩
    · rcases hid with hid | hid
      · simp only [step, dispatch, handle_homekit, hsrc, hid]
        split_ifs <;> simp <;> omega
      · simp [step, dispatch, handle_homekit, hsrc, hid]
        omega
    · simp only [step, dispatch, handle_homekit, hsrc, hid]
      split_ifs with hz <;> simp only [SPEED_OFF] at hz <;> simp <;> omega

/-- The SPEED_1..SPEED_4 invariant holds after any run of valid commands from
a state satisfying it. -/
lemma c7_run_aux : ∀ (evs : List Fan_event_t) (s : SysState),
    (∀ e ∈ evs, ValidCmd e) → 1 ≤ s.fan.speed → s.fan.speed ≤ 4 →
    1 ≤ (evs.foldl step s).fan.speed ∧ (evs.foldl step s).fan.speed ≤ 4 := by
  intro evs
  induction evs with
  | nil => intro s _ h1 h4; exact ⟨h1, h4⟩
  | cons e es ih =>
    intro s h h1 h4
    have hp := c7_step_preserves s e (h e (by simp)) h1 h4
    simpa [List.foldl_cons] using
      ih (step s e) (fun x hx => h x (by simp [hx])) hp.1 hp.2

/-- Claim C7: from the app_main initial state every sequence of producer
commands keeps the stored speed in SPEED_1..SPEED_4 (never SPEED_OFF);
whenever a Button/Power command leaves the fan off the stored speed has been
reset to SPEED_4; Remote/Power and SmartHome/Power never change the stored
speed; and a SmartHome Speed command with argument SPEED_OFF is ignored
entirely. -/
theorem c7_speed_invariant :
    (∀ evs : List Fan_event_t, (∀ e ∈ evs, ValidCmd e) →
       1 ≤ (run evs).fan.speed ∧ (run evs).fan.speed ≤ 4) ∧
    (∀ s : SysState, (handle_button s button_power_event).1.fan.isOn = false →
       (handle_button s button_power_event).1.fan.speed = 4) ∧
    (∀ s : SysState, (handle_remote s power_event).1.fan.speed = s.fan.speed) ∧
    (∀ (s : SysState) (a : Int),
       (handle_homekit s ⟨Event_source.homekit, Event_id.power, a⟩).1.fan.speed
         = s.fan.speed) ∧
    (∀ s : SysState,
       handle_homekit s ⟨Event_source.homekit, Event_id.speed, 0⟩ = (s, [])) := by
  refine ⟨?_, ?_, ?_, ?_, ?_⟩
  · intro evs h
    exact c7_run_aux evs initSys h (by decide) (by decide)
  · intro s h
    simp only [handle_button, button_power_event] at h ⊢
    rw [decide_eq_false_iff_not] at h
    push_neg at h
    simp [h.symm, SPEED_4]
  · intro s
    rfl
  · intro s a
    simp only [handle_homekit]
    split_ifs <;> rfl
  · intro s
    rfl

/-- Witness for C7: a concrete valid command sequence from initialisation, a
state that the button powers off, and concrete states for the
speed-preservation parts. -/
theorem c7_witness :
    (1 ≤ (run [button_power_event,
               ⟨Event_source.remote, Event_id.speed, 0⟩,
               ⟨Event_source.homekit, Event_id.speed, 2⟩]).fan.speed ∧
     (run [button_power_event,
           ⟨Event_source.remote, Event_id.speed, 0⟩,
           ⟨Event_source.homekit, Event_id.speed, 2⟩]).fan.speed ≤ 4) ∧
    (handle_button ⟨⟨true, false, 1⟩, true⟩ button_power_event).1.fan.speed = 4 ∧
    handle_homekit ⟨⟨true, true, 3⟩, true⟩
      ⟨Event_source.homekit, Event_id.speed, 0⟩ = (⟨⟨true, true, 3⟩, true⟩, []) :=
  ⟨c7_speed_invariant.1 _ (by decide),
   c7_speed_invariant.2.1 ⟨⟨true, false, 1⟩, true⟩ (by decide),
   c7_speed_invariant.2.2.2.2 ⟨⟨true, true, 3⟩, true⟩⟩

end FanVerify
